/-
Verification of `draw3d.py` (Chapter 03): a shallow embedding of the five
3D-object classes, the vector-extraction generator `extract_vectors_3D`, and
the `draw3d` function, together with theorems settling the specification
claims about them.

Modelling conventions:
* A coordinate triple is `Vec3 := ℚ × ℚ × ℚ` (the Python code computes with
  numbers; we use exact rationals, so `0.05` is `5/100`).
* Python exceptions are modelled by `Except PyError`: the `TypeError` raised
  on an unrecognized object, and the `ValueError` raised by tuple unpacking
  of `zip(*lst)` when `lst` is empty.
* Arbitrary Python objects that are none of the five recognized classes are
  modelled by the constructor `Obj3D.unrecognized`, carrying the string that
  Python would interpolate into the error message.
* Matplotlib side effects are modelled by the list of drawing commands issued
  to the axes object, in order, plus the final axis limits and ticks.
* `colors.py` is imported by the source (`from colors import *`) but is not
  part of the repository snapshot; the color constants are opaque matplotlib
  color names, modelled as strings.
-/
import Mathlib

/-- A 3D coordinate triple (x, y, z). -/
abbrev Vec3 : Type := ℚ × ℚ × ℚ

/-- The origin `(0.0, 0.0, 0.0)` appended at line 114 when `origin=True`. -/
def origin3 : Vec3 := ((0 : ℚ), (0 : ℚ), (0 : ℚ))

/-- Modelled from the spec: `colors.py` (imported via `from colors import *`)
is missing from the snapshot; it provides named matplotlib colors such as
`blue`, `red`, `black`. We model a color as its matplotlib name string. -/
def blue : String := "blue"

/-- Modelled from the spec: the color `red` from the missing `colors.py`. -/
def red : String := "red"

/-- Modelled from the spec: the color `black` from the missing `colors.py`. -/
def black : String := "black"

/-- `Polygon3D(*vertices, color=blue)`: an ordered sequence of vertices. -/
structure Polygon3D where
  vertices : List Vec3
  color : String
deriving DecidableEq, Repr

/-- `Points3D(*vectors, color=black)`: a list of vectors drawn as a scatter. -/
structure Points3D where
  vectors : List Vec3
  color : String
deriving DecidableEq, Repr

/-- `Arrow3D(tip, tail=(0,0,0), color=red)`. -/
structure Arrow3D where
  tip : Vec3
  tail : Vec3
  color : String
deriving DecidableEq, Repr

/-- `Segment3D(start_point, end_point, color=blue, linestyle='solid')`. -/
structure Segment3D where
  start_point : Vec3
  end_point : Vec3
  color : String
  linestyle : String
deriving DecidableEq, Repr

/-- `Box3D(*vector)`: a box from (0,0,0) to the stored triple. -/
structure Box3D where
  vector : Vec3
deriving DecidableEq, Repr

/-- A Python value passed to `draw3d`: one of the five recognized classes, or
any other object (modelled by the string Python would print for it). -/
inductive Obj3D where
  | polygon (p : Polygon3D)
  | points (p : Points3D)
  | arrow (a : Arrow3D)
  | segment (s : Segment3D)
  | box (b : Box3D)
  | unrecognized (repr : String)
deriving DecidableEq, Repr

/-- Whether an object is one of the five recognized classes. -/
def Obj3D.recognizedb : Obj3D → Bool
  | .unrecognized _ => false
  | _ => true

/-- The two Python exception kinds the code can raise. -/
inductive PyError where
  | typeError (msg : String)
  | valueError (msg : String)
deriving DecidableEq, Repr

/-- Equality of run results is decidable, so concrete runs can be checked. -/
instance {e a : Type} [DecidableEq e] [DecidableEq a] :
    DecidableEq (Except e a) := fun u v =>
  match u, v with
  | .error e1, .error e2 =>
    if h : e1 = e2 then .isTrue (by rw [h])
    else .isFalse (fun hh => h (Except.error.inj hh))
  | .ok x, .ok y =>
    if h : x = y then .isTrue (by rw [h])
    else .isFalse (fun hh => h (Except.ok.inj hh))
  | .error _, .ok _ => .isFalse (fun hh => Except.noConfusion hh)
  | .ok _, .error _ => .isFalse (fun hh => Except.noConfusion hh)

/-- The `ValueError` of `xs, ys, zs = zip(*lst)` on an empty `lst`
(lines 116 and 167). -/
def unpackError : PyError :=
  .valueError "not enough values to unpack (expected 3, got 0)"

/-- The vectors one object contributes in `extract_vectors_3D` (lines 57-75):
all vertices of a `Polygon3D`, all vectors of a `Points3D`, tip then tail of
an `Arrow3D`, start then end of a `Segment3D`, the corner of a `Box3D`;
a `TypeError` identifying the object otherwise. -/
def extractObjVectors : Obj3D → Except PyError (List Vec3)
  | .polygon p => .ok p.vertices
  | .points p => .ok p.vectors
  | .arrow a => .ok [a.tip, a.tail]
  | .segment s => .ok [s.start_point, s.end_point]
  | .box b => .ok [b.vector]
  | .unrecognized r => .error (.typeError ("Unrecognized object: " ++ r))

/-- `extract_vectors_3D(objects)` (lines 56-75), as consumed in full by
`list(...)` at line 112: the concatenation of every object's contribution,
or the `TypeError` raised at the first unrecognized object. -/
def extract_vectors_3D : List Obj3D → Except PyError (List Vec3)
  | [] => .ok []
  | o :: rest =>
    match extractObjVectors o with
    | .error e => .error e
    | .ok vs =>
      match extract_vectors_3D rest with
      | .error e => .error e
      | .ok ws => .ok (vs ++ ws)

/-- Python's two-argument `min` on rationals, written as an executable
conditional (it agrees with Mathlib's `min`, see `rmin_eq_min`). -/
def rmin (a b : ℚ) : ℚ := if a ≤ b then a else b

/-- Python's two-argument `max` on rationals, written as an executable
conditional (it agrees with Mathlib's `max`, see `rmax_eq_max`). -/
def rmax (a b : ℚ) : ℚ := if a ≤ b then b else a

/-- `max(0, *cs)` (lines 119-121): the maximum of 0 and all entries. -/
def clampedMax (cs : List ℚ) : ℚ := cs.foldl rmax 0

/-- `min(0, *cs)` (lines 119-121): the minimum of 0 and all entries. -/
def clampedMin (cs : List ℚ) : ℚ := cs.foldl rmin 0

/-- `0.05 * size if (size != 0) else 1` (lines 127-129). -/
def paddingOf (size : ℚ) : ℚ := if size ≠ 0 then (5 / 100) * size else 1

/-- One axis of steps 4-5 (lines 119-134): min/max clamped to 0, padding,
then the range widened to at least `[-2, 2]`. -/
def axisRange (cs : List ℚ) : ℚ × ℚ :=
  let maxc := clampedMax cs
  let minc := clampedMin cs
  let size := maxc - minc
  let pad := paddingOf size
  (rmin (minc - pad) (-2), rmax (maxc + pad) 2)

/-- A drawing command issued to the matplotlib axes: `ax.plot` of a single
segment (every call goes through `_draw_axis_line` or builds the same
two-point lists), `ax.scatter`, or `ax.quiver`. -/
inductive DrawCmd where
  | line (p1 p2 : Vec3) (color : String) (linestyle : String)
  | scatter (pts : List Vec3) (color : String) (marker : String)
  | quiver (tail delta : Vec3) (color : String)
deriving DecidableEq, Repr

/-- The polygon edges of lines 172-175: for `i in range(N)`, the edge from
`vertices[i]` to `vertices[(i+1) % N]`. -/
def polygonEdges (vs : List Vec3) : List (Vec3 × Vec3) :=
  (List.range vs.length).map fun i =>
    (vs.getD i ((0 : ℚ), (0 : ℚ), (0 : ℚ)),
     vs.getD ((i + 1) % vs.length) ((0 : ℚ), (0 : ℚ), (0 : ℚ)))

/-- The `_draw_axis_line` calls of the `Box3D` branch (lines 205-216), in
source order: the dashed gray segments drawn for a box with corner (x,y,z). -/
def boxCmds (v : Vec3) : List DrawCmd :=
  let x := v.1
  let y := v.2.1
  let z := v.2.2
  [ .line (0, y, 0) (x, y, 0) "gray" "dashed",
    .line (0, 0, z) (0, y, z) "gray" "dashed",
    .line (0, 0, z) (x, 0, z) "gray" "dashed",
    .line (0, y, 0) (0, y, z) "gray" "dashed",
    .line (x, 0, 0) (x, y, 0) "gray" "dashed",
    .line (x, 0, 0) (x, 0, z) "gray" "dashed",
    .line (0, y, z) (x, y, z) "gray" "dashed",
    .line (x, 0, z) (x, y, z) "gray" "dashed",
    .line (x, y, 0) (x, y, z) "gray" "dashed" ]

/-- The drawing commands of step 8 (lines 164-219) for one object.
`Points3D` with an empty vector list hits `zip(*obj.vectors)` unpacking at
line 167 and raises `ValueError`; an unrecognized object raises `TypeError`
at line 219. -/
def drawObjCmds (depthshade : Bool) : Obj3D → Except PyError (List DrawCmd)
  | .points p =>
    if p.vectors.isEmpty then
      .error unpackError
    else
      .ok [.scatter p.vectors p.color (if depthshade then "o-shaded" else "o")]
  | .polygon p =>
    .ok ((polygonEdges p.vertices).map fun e => .line e.1 e.2 p.color "solid")
  | .arrow a =>
    .ok [.quiver a.tail
      (a.tip.1 - a.tail.1, a.tip.2.1 - a.tail.2.1, a.tip.2.2 - a.tail.2.2)
      a.color]
  | .segment s => .ok [.line s.start_point s.end_point s.color s.linestyle]
  | .box b => .ok (boxCmds b.vector)
  | .unrecognized r => .error (.typeError ("Unrecognized object: " ++ r))

/-- Step 8 over all objects in order, stopping at the first exception. -/
def drawAllCmds (depthshade : Bool) : List Obj3D → Except PyError (List DrawCmd)
  | [] => .ok []
  | o :: rest =>
    match drawObjCmds depthshade o with
    | .error e => .error e
    | .ok cs =>
      match drawAllCmds depthshade rest with
      | .error e => .error e
      | .ok rs => .ok (cs ++ rs)

/-- The keyword arguments of `draw3d` that affect the modelled output.
`width`, `save_as`, `azim` and `elev` only size, save or rotate the figure
and are not modelled. -/
structure Draw3DArgs where
  origin : Bool
  axes : Bool
  xlim : Option (ℚ × ℚ)
  ylim : Option (ℚ × ℚ)
  zlim : Option (ℚ × ℚ)
  xticks : Option (List ℚ)
  yticks : Option (List ℚ)
  zticks : Option (List ℚ)
  depthshade : Bool
deriving DecidableEq, Repr

/-- The observable result of a successful `draw3d` call: the computed plot
ranges of step 5, the final axis limits and ticks after the overrides of
steps 9-10 (`none` ticks = matplotlib defaults), and the drawing commands
in the order they were issued. -/
structure Scene where
  plot_x_range : ℚ × ℚ
  plot_y_range : ℚ × ℚ
  plot_z_range : ℚ × ℚ
  final_xlim : ℚ × ℚ
  final_ylim : ℚ × ℚ
  final_zlim : ℚ × ℚ
  final_xticks : Option (List ℚ)
  final_yticks : Option (List ℚ)
  final_zticks : Option (List ℚ)
  commands : List DrawCmd
deriving DecidableEq, Repr

/-- Steps 4-10 of `draw3d` on an already collected, non-empty `all_vectors`
list and the per-object commands of step 8: the computed plot ranges
(lines 119-134), the axis lines of step 6, the origin marker of step 7, and
the limit/tick overrides of steps 9-10, which fire only when all three of
the group are given (lines 222 and 228). -/
def mkScene (args : Draw3DArgs) (all_vectors : List Vec3)
    (objCmds : List DrawCmd) : Scene :=
  let px := axisRange (all_vectors.map fun v => v.1)
  let py := axisRange (all_vectors.map fun v => v.2.1)
  let pz := axisRange (all_vectors.map fun v => v.2.2)
  let axisCmds : List DrawCmd :=
    if args.axes then
      [ .line (px.1, 0, 0) (px.2, 0, 0) black "solid",
        .line (0, py.1, 0) (0, py.2, 0) black "solid",
        .line (0, 0, pz.1) (0, 0, pz.2) black "solid" ]
    else []
  let originCmds : List DrawCmd :=
    if args.origin then [.scatter [origin3] "k" "x"] else []
  let overrideLims :=
    args.xlim.isSome && args.ylim.isSome && args.zlim.isSome
  let overrideTicks :=
    args.xticks.isSome && args.yticks.isSome && args.zticks.isSome
  ⟨px, py, pz,
    if overrideLims then args.xlim.getD px else px,
    if overrideLims then args.ylim.getD py else py,
    if overrideLims then args.zlim.getD pz else pz,
    if overrideTicks then args.xticks else none,
    if overrideTicks then args.yticks else none,
    if overrideTicks then args.zticks else none,
    axisCmds ++ originCmds ++ objCmds⟩

/-- `draw3d(*objects, ...)` (lines 77-238). Step 3 collects all vectors
(appending (0,0,0) when `origin`); `xs, ys, zs = zip(*all_vectors)` at
line 116 raises `ValueError` when the list is empty. Steps 4-10 are
`mkScene`; step 8's per-object drawing is `drawAllCmds` and can raise. -/
def draw3d (objects : List Obj3D) (args : Draw3DArgs) : Except PyError Scene :=
  match extract_vectors_3D objects with
  | .error e => .error e
  | .ok extracted =>
    let all_vectors := if args.origin then extracted ++ [origin3] else extracted
    if all_vectors.isEmpty then
      .error unpackError
    else
      match drawAllCmds args.depthshade objects with
      | .error e => .error e
      | .ok objCmds => .ok (mkScene args all_vectors objCmds)

/-- Whether an object avoids the `ValueError` of `zip(*obj.vectors)` at
line 167: every recognized object except a `Points3D` with no vectors. -/
def Obj3D.scatterSafe : Obj3D → Bool
  | .points p => !p.vectors.isEmpty
  | .unrecognized _ => false
  | _ => true

/-- The coordinate triples the spec documents for one recognized object:
"every vertex of each Polygon3D, every vector of each Points3D, the tip and
tail of each Arrow3D, both endpoints of each Segment3D, and the corner
vector of each Box3D". Stated from the spec's words, to be compared with
`extract_vectors_3D`; unrecognized objects contribute nothing (the spec
documents only a failure for them). -/
def documentedVectors : Obj3D → List Vec3
  | .polygon p => p.vertices
  | .points p => p.vectors
  | .arrow a => [a.tip, a.tail]
  | .segment s => [s.start_point, s.end_point]
  | .box b => [b.vector]
  | .unrecognized _ => []

/-- The coordinate endpoints a drawing command touches: both ends of a line,
every scattered point, the tail of a quiver arrow. -/
def cmdEndpoints : DrawCmd → List Vec3
  | .line p q _ _ => [p, q]
  | .scatter pts _ _ => pts
  | .quiver t _ _ => [t]

/-- The spec's description of one axis-range computation, stated from the
claim's words: `m` and `M` are the per-axis min and max clamped to include
zero (lower bounds / upper bounds attained in the list or at zero), the
padding is 5% of the extent `M - m` (or 1 when the extent is zero), and the
resulting interval is widened to span at least `[-2, 2]`. -/
def rangeSpecHolds (cs : List ℚ) (r : ℚ × ℚ) : Prop :=
  ∃ m M : ℚ,
    m ≤ 0 ∧ (∀ c ∈ cs, m ≤ c) ∧ (m = 0 ∨ m ∈ cs) ∧
    0 ≤ M ∧ (∀ c ∈ cs, c ≤ M) ∧ (M = 0 ∨ M ∈ cs) ∧
    r = (min (m - (if M - m = 0 then 1 else (5 / 100) * (M - m))) (-2),
         max (M + (if M - m = 0 then 1 else (5 / 100) * (M - m))) 2)

/-! ### Facts about the clamped fold computing min/max -/

theorem rmin_eq_min (a b : ℚ) : rmin a b = min a b := by
  unfold rmin
  by_cases h : a ≤ b
  · rw [if_pos h, min_eq_left h]
  · rw [if_neg h, min_eq_right (le_of_not_le h)]

theorem rmax_eq_max (a b : ℚ) : rmax a b = max a b := by
  unfold rmax
  by_cases h : a ≤ b
  · rw [if_pos h, max_eq_right h]
  · rw [if_neg h, max_eq_left (le_of_not_le h)]

theorem foldl_rmin_eq (cs : List ℚ) :
    ∀ a : ℚ, cs.foldl rmin a = cs.foldl min a := by
  induction cs with
  | nil => intro a; rfl
  | cons c cs ih =>
    intro a
    rw [List.foldl_cons, List.foldl_cons, rmin_eq_min, ih]

theorem foldl_rmax_eq (cs : List ℚ) :
    ∀ a : ℚ, cs.foldl rmax a = cs.foldl max a := by
  induction cs with
  | nil => intro a; rfl
  | cons c cs ih =>
    intro a
    rw [List.foldl_cons, List.foldl_cons, rmax_eq_max, ih]

theorem clampedMin_eq (cs : List ℚ) : clampedMin cs = cs.foldl min 0 :=
  foldl_rmin_eq cs 0

theorem clampedMax_eq (cs : List ℚ) : clampedMax cs = cs.foldl max 0 :=
  foldl_rmax_eq cs 0

theorem axisRange_eq_minmax (cs : List ℚ) :
    axisRange cs =
      (min (clampedMin cs - paddingOf (clampedMax cs - clampedMin cs)) (-2),
       max (clampedMax cs + paddingOf (clampedMax cs - clampedMin cs)) 2) := by
  show (rmin (clampedMin cs - paddingOf (clampedMax cs - clampedMin cs)) (-2),
      rmax (clampedMax cs + paddingOf (clampedMax cs - clampedMin cs)) 2) = _
  rw [rmin_eq_min, rmax_eq_max]

theorem foldl_min_le_init (cs : List ℚ) : ∀ a : ℚ, cs.foldl min a ≤ a := by
  induction cs with
  | nil => intro a; exact le_rfl
  | cons c cs ih => intro a; exact le_trans (ih (min a c)) (min_le_left a c)

theorem foldl_min_le_mem (cs : List ℚ) :
    ∀ a c, c ∈ cs → cs.foldl min a ≤ c := by
  induction cs with
  | nil => intro a c h; cases h
  | cons d cs ih =>
    intro a c h
    rcases List.mem_cons.mp h with h | h
    · subst h
      exact le_trans (foldl_min_le_init cs (min a c)) (min_le_right a c)
    · exact ih (min a d) c h

theorem foldl_min_attained (cs : List ℚ) :
    ∀ a : ℚ, cs.foldl min a = a ∨ cs.foldl min a ∈ cs := by
  induction cs with
  | nil => intro a; exact Or.inl rfl
  | cons c cs ih =>
    intro a
    rcases ih (min a c) with h | h
    · rw [List.foldl_cons, h]
      rcases min_choice a c with h2 | h2
      · exact Or.inl h2
      · exact Or.inr (by rw [h2]; exact List.mem_cons_self c cs)
    · exact Or.inr (List.mem_cons_of_mem c h)

theorem foldl_max_init_le (cs : List ℚ) : ∀ a : ℚ, a ≤ cs.foldl max a := by
  induction cs with
  | nil => intro a; exact le_rfl
  | cons c cs ih => intro a; exact le_trans (le_max_left a c) (ih (max a c))

theorem foldl_max_mem_le (cs : List ℚ) :
    ∀ a c, c ∈ cs → c ≤ cs.foldl max a := by
  induction cs with
  | nil => intro a c h; cases h
  | cons d cs ih =>
    intro a c h
    rcases List.mem_cons.mp h with h | h
    · subst h
      exact le_trans (le_max_right a c) (foldl_max_init_le cs (max a c))
    · exact ih (max a d) c h

theorem foldl_max_attained (cs : List ℚ) :
    ∀ a : ℚ, cs.foldl max a = a ∨ cs.foldl max a ∈ cs := by
  induction cs with
  | nil => intro a; exact Or.inl rfl
  | cons c cs ih =>
    intro a
    rcases ih (max a c) with h | h
    · rw [List.foldl_cons, h]
      rcases max_choice a c with h2 | h2
      · exact Or.inl h2
      · exact Or.inr (by rw [h2]; exact List.mem_cons_self c cs)
    · exact Or.inr (List.mem_cons_of_mem c h)

theorem clampedMin_le_zero (cs : List ℚ) : clampedMin cs ≤ 0 := by
  rw [clampedMin_eq]; exact foldl_min_le_init cs 0

theorem clampedMin_le_mem (cs : List ℚ) (c : ℚ) (h : c ∈ cs) :
    clampedMin cs ≤ c := by
  rw [clampedMin_eq]; exact foldl_min_le_mem cs 0 c h

theorem clampedMin_attained (cs : List ℚ) :
    clampedMin cs = 0 ∨ clampedMin cs ∈ cs := by
  rw [clampedMin_eq]; exact foldl_min_attained cs 0

theorem zero_le_clampedMax (cs : List ℚ) : 0 ≤ clampedMax cs := by
  rw [clampedMax_eq]; exact foldl_max_init_le cs 0

theorem mem_le_clampedMax (cs : List ℚ) (c : ℚ) (h : c ∈ cs) :
    c ≤ clampedMax cs := by
  rw [clampedMax_eq]; exact foldl_max_mem_le cs 0 c h

theorem clampedMax_attained (cs : List ℚ) :
    clampedMax cs = 0 ∨ clampedMax cs ∈ cs := by
  rw [clampedMax_eq]; exact foldl_max_attained cs 0

theorem clampedMin_append_zero (cs : List ℚ) :
    clampedMin (cs ++ [0]) = clampedMin cs := by
  rw [clampedMin_eq, clampedMin_eq, List.foldl_append, List.foldl_cons,
    List.foldl_nil]
  exact min_eq_left (foldl_min_le_init cs 0)

theorem clampedMax_append_zero (cs : List ℚ) :
    clampedMax (cs ++ [0]) = clampedMax cs := by
  rw [clampedMax_eq, clampedMax_eq, List.foldl_append, List.foldl_cons,
    List.foldl_nil]
  exact max_eq_left (foldl_max_init_le cs 0)

theorem paddingOf_nonneg (size : ℚ) (h : 0 ≤ size) : 0 ≤ paddingOf size := by
  unfold paddingOf
  by_cases hz : size = 0
  · simp [hz]
  · rw [if_pos hz]
    positivity

/-! ### Facts about one axis range -/

theorem axisRange_append_zero (cs : List ℚ) :
    axisRange (cs ++ [0]) = axisRange cs := by
  unfold axisRange
  rw [clampedMin_append_zero, clampedMax_append_zero]

theorem axisRange_lo_le_neg_two (cs : List ℚ) : (axisRange cs).1 ≤ -2 := by
  rw [axisRange_eq_minmax]; exact min_le_right _ _

theorem two_le_axisRange_hi (cs : List ℚ) : 2 ≤ (axisRange cs).2 := by
  rw [axisRange_eq_minmax]; exact le_max_right _ _

theorem axisRange_pad_nonneg (cs : List ℚ) :
    0 ≤ paddingOf (clampedMax cs - clampedMin cs) :=
  paddingOf_nonneg _
    (sub_nonneg.mpr (le_trans (clampedMin_le_zero cs) (zero_le_clampedMax cs)))

theorem axisRange_lo_le_mem (cs : List ℚ) (c : ℚ) (h : c ∈ cs) :
    (axisRange cs).1 ≤ c := by
  have h1 : (axisRange cs).1 ≤
      clampedMin cs - paddingOf (clampedMax cs - clampedMin cs) := by
    rw [axisRange_eq_minmax]; exact min_le_left _ _
  have h2 : clampedMin cs - paddingOf (clampedMax cs - clampedMin cs) ≤
      clampedMin cs :=
    sub_le_self _ (axisRange_pad_nonneg cs)
  exact le_trans h1 (le_trans h2 (clampedMin_le_mem cs c h))

theorem axisRange_mem_le_hi (cs : List ℚ) (c : ℚ) (h : c ∈ cs) :
    c ≤ (axisRange cs).2 := by
  have h1 : clampedMax cs + paddingOf (clampedMax cs - clampedMin cs) ≤
      (axisRange cs).2 := by
    rw [axisRange_eq_minmax]; exact le_max_left _ _
  have h2 : clampedMax cs ≤
      clampedMax cs + paddingOf (clampedMax cs - clampedMin cs) :=
    le_add_of_nonneg_right (axisRange_pad_nonneg cs)
  exact le_trans (mem_le_clampedMax cs c h) (le_trans h2 h1)

theorem axisRange_meets_spec (cs : List ℚ) : rangeSpecHolds cs (axisRange cs) := by
  refine ⟨clampedMin cs, clampedMax cs, clampedMin_le_zero cs,
    fun c hc => clampedMin_le_mem cs c hc, clampedMin_attained cs,
    zero_le_clampedMax cs, fun c hc => mem_le_clampedMax cs c hc,
    clampedMax_attained cs, ?_⟩
  rw [axisRange_eq_minmax]
  unfold paddingOf
  by_cases hz : clampedMax cs - clampedMin cs = 0
  · simp [hz]
  · simp [hz]

theorem axisRange_perm (cs₁ cs₂ : List ℚ) (p : cs₁.Perm cs₂) :
    axisRange cs₁ = axisRange cs₂ := by
  have hmin : clampedMin cs₁ = clampedMin cs₂ := by
    rw [clampedMin_eq, clampedMin_eq]; exact p.foldl_eq 0
  have hmax : clampedMax cs₁ = clampedMax cs₂ := by
    rw [clampedMax_eq, clampedMax_eq]; exact p.foldl_eq 0
  unfold axisRange
  rw [hmin, hmax]

/-! ### Facts about vector extraction -/

theorem extractObjVectors_of_recognized (o : Obj3D) (h : o.recognizedb = true) :
    extractObjVectors o = .ok (documentedVectors o) := by
  cases o <;> simp [extractObjVectors, documentedVectors, Obj3D.recognizedb] at h ⊢

theorem extract_ok_of_recognized (objects : List Obj3D)
    (h : ∀ o ∈ objects, o.recognizedb = true) :
    extract_vectors_3D objects = .ok (objects.flatMap documentedVectors) := by
  induction objects with
  | nil => rfl
  | cons o rest ih =>
    have ho := extractObjVectors_of_recognized o (h o (List.mem_cons_self o rest))
    have hrest := ih (fun o2 ho2 => h o2 (List.mem_cons_of_mem o ho2))
    simp [extract_vectors_3D, ho, hrest, List.flatMap_cons]

theorem extract_error_of_unrecognized (objects : List Obj3D)
    (h : ∃ o ∈ objects, o.recognizedb = false) :
    ∃ r, Obj3D.unrecognized r ∈ objects ∧
      extract_vectors_3D objects =
        .error (.typeError ("Unrecognized object: " ++ r)) := by
  induction objects with
  | nil => obtain ⟨o, ho, _⟩ := h; cases ho
  | cons o rest ih =>
    cases o with
    | unrecognized r =>
      exact ⟨r, List.mem_cons_self _ rest, rfl⟩
    | polygon p =>
      obtain ⟨o2, ho2, hr2⟩ := h
      rcases List.mem_cons.mp ho2 with he | he
      · rw [he] at hr2; cases hr2
      · obtain ⟨r, hmem, heq⟩ := ih ⟨o2, he, hr2⟩
        exact ⟨r, List.mem_cons_of_mem _ hmem, by
          simp [extract_vectors_3D, extractObjVectors, heq]⟩
    | points p =>
      obtain ⟨o2, ho2, hr2⟩ := h
      rcases List.mem_cons.mp ho2 with he | he
      · rw [he] at hr2; cases hr2
      · obtain ⟨r, hmem, heq⟩ := ih ⟨o2, he, hr2⟩
        exact ⟨r, List.mem_cons_of_mem _ hmem, by
          simp [extract_vectors_3D, extractObjVectors, heq]⟩
    | arrow a =>
      obtain ⟨o2, ho2, hr2⟩ := h
      rcases List.mem_cons.mp ho2 with he | he
      · rw [he] at hr2; cases hr2
      · obtain ⟨r, hmem, heq⟩ := ih ⟨o2, he, hr2⟩
        exact ⟨r, List.mem_cons_of_mem _ hmem, by
          simp [extract_vectors_3D, extractObjVectors, heq]⟩
    | segment sg =>
      obtain ⟨o2, ho2, hr2⟩ := h
      rcases List.mem_cons.mp ho2 with he | he
      · rw [he] at hr2; cases hr2
      · obtain ⟨r, hmem, heq⟩ := ih ⟨o2, he, hr2⟩
        exact ⟨r, List.mem_cons_of_mem _ hmem, by
          simp [extract_vectors_3D, extractObjVectors, heq]⟩
    | box b =>
      obtain ⟨o2, ho2, hr2⟩ := h
      rcases List.mem_cons.mp ho2 with he | he
      · rw [he] at hr2; cases hr2
      · obtain ⟨r, hmem, heq⟩ := ih ⟨o2, he, hr2⟩
        exact ⟨r, List.mem_cons_of_mem _ hmem, by
          simp [extract_vectors_3D, extractObjVectors, heq]⟩

theorem recognized_of_extract_ok (objects : List Obj3D) (vs : List Vec3)
    (h : extract_vectors_3D objects = .ok vs) :
    ∀ o ∈ objects, o.recognizedb = true := by
  intro o ho
  by_contra hfalse
  have hf : o.recognizedb = false := by
    cases hb : o.recognizedb
    · rfl
    · exact absurd hb hfalse
  obtain ⟨r, _, heq⟩ := extract_error_of_unrecognized objects ⟨o, ho, hf⟩
  rw [heq] at h
  cases h

theorem extract_ok_eq_flatMap (objects : List Obj3D) (vs : List Vec3)
    (h : extract_vectors_3D objects = .ok vs) :
    vs = objects.flatMap documentedVectors := by
  have := extract_ok_of_recognized objects (recognized_of_extract_ok objects vs h)
  rw [this] at h
  exact (Except.ok.inj h).symm

theorem extract_error_form (objects : List Obj3D) (e : PyError)
    (h : extract_vectors_3D objects = .error e) :
    ∃ r, Obj3D.unrecognized r ∈ objects ∧
      e = .typeError ("Unrecognized object: " ++ r) := by
  by_cases hall : ∀ o ∈ objects, o.recognizedb = true
  · rw [extract_ok_of_recognized objects hall] at h; cases h
  · push_neg at hall
    obtain ⟨o, ho, hf⟩ := hall
    have hf2 : o.recognizedb = false := by
      cases hb : o.recognizedb
      · rfl
      · exact absurd hb hf
    obtain ⟨r, hmem, heq⟩ := extract_error_of_unrecognized objects ⟨o, ho, hf2⟩
    rw [heq] at h
    exact ⟨r, hmem, (Except.error.inj h).symm⟩

/-! ### Facts about the per-object drawing dispatch -/

theorem scatterSafe_recognized (o : Obj3D) (h : o.scatterSafe = true) :
    o.recognizedb = true := by
  cases o <;> simp [Obj3D.scatterSafe, Obj3D.recognizedb] at h ⊢

theorem drawObjCmds_ok_of_safe (d : Bool) (o : Obj3D)
    (h : o.scatterSafe = true) :
    ∃ cs, drawObjCmds d o = .ok cs := by
  cases o with
  | points p =>
    have hne : p.vectors.isEmpty = false := by
      simpa [Obj3D.scatterSafe] using h
    exact ⟨[.scatter p.vectors p.color (if d then "o-shaded" else "o")],
      by simp [drawObjCmds, hne]⟩
  | unrecognized r => simp [Obj3D.scatterSafe] at h
  | polygon p => exact ⟨_, rfl⟩
  | arrow a => exact ⟨_, rfl⟩
  | segment sg => exact ⟨_, rfl⟩
  | box b => exact ⟨_, rfl⟩

theorem drawAll_ok_of_safe (d : Bool) (objects : List Obj3D)
    (h : ∀ o ∈ objects, o.scatterSafe = true) :
    ∃ cs, drawAllCmds d objects = .ok cs := by
  induction objects with
  | nil => exact ⟨[], rfl⟩
  | cons o rest ih =>
    obtain ⟨cs, hcs⟩ := drawObjCmds_ok_of_safe d o (h o (List.mem_cons_self o rest))
    obtain ⟨rs, hrs⟩ := ih (fun o2 ho2 => h o2 (List.mem_cons_of_mem o ho2))
    exact ⟨cs ++ rs, by simp [drawAllCmds, hcs, hrs]⟩

theorem drawObjCmds_error_form (d : Bool) (o : Obj3D) (e : PyError)
    (h : drawObjCmds d o = .error e) :
    (∃ r, o = .unrecognized r ∧
      e = .typeError ("Unrecognized object: " ++ r)) ∨ e = unpackError := by
  cases o with
  | points p =>
    by_cases hne : p.vectors.isEmpty
    · right
      simp [drawObjCmds, hne] at h
      exact h.symm
    · simp [drawObjCmds, hne] at h
  | unrecognized r =>
    left
    exact ⟨r, rfl, (Except.error.inj h).symm⟩
  | polygon p => cases h
  | arrow a => cases h
  | segment sg => cases h
  | box b => cases h

theorem drawAll_error_form (d : Bool) (objects : List Obj3D) (e : PyError)
    (h : drawAllCmds d objects = .error e) :
    (∃ r, Obj3D.unrecognized r ∈ objects ∧
      e = .typeError ("Unrecognized object: " ++ r)) ∨ e = unpackError := by
  induction objects with
  | nil => cases h
  | cons o rest ih =>
    unfold drawAllCmds at h
    cases ho : drawObjCmds d o with
    | error e0 =>
      rw [ho] at h
      have he : e = e0 := (Except.error.inj h).symm
      subst he
      rcases drawObjCmds_error_form d o e ho with ⟨r, hor, hform⟩ | hform
      · exact Or.inl ⟨r, by rw [hor] at *; exact List.mem_cons_self _ _, hform⟩
      · exact Or.inr hform
    | ok cs =>
      rw [ho] at h
      cases hrest : drawAllCmds d rest with
      | error e1 =>
        rw [hrest] at h
        have he : e = e1 := (Except.error.inj h).symm
        subst he
        rcases ih hrest with ⟨r, hmem, hform⟩ | hform
        · exact Or.inl ⟨r, List.mem_cons_of_mem o hmem, hform⟩
        · exact Or.inr hform
      | ok rs =>
        rw [hrest] at h
        cases h

/-! ### Decomposing draw3d runs -/

theorem draw3d_ok_elim (objects : List Obj3D) (args : Draw3DArgs) (s : Scene)
    (h : draw3d objects args = .ok s) :
    ∃ vs cs, extract_vectors_3D objects = .ok vs ∧
      (if args.origin then vs ++ [origin3] else vs).isEmpty = false ∧
      drawAllCmds args.depthshade objects = .ok cs ∧
      s = mkScene args (if args.origin then vs ++ [origin3] else vs) cs := by
  unfold draw3d at h
  cases hx : extract_vectors_3D objects with
  | error e => rw [hx] at h; cases h
  | ok vs =>
    rw [hx] at h
    simp only at h
    by_cases he : (if args.origin then vs ++ [origin3] else vs).isEmpty
    · rw [if_pos he] at h; cases h
    · rw [if_neg he] at h
      cases hd : drawAllCmds args.depthshade objects with
      | error e => rw [hd] at h; cases h
      | ok cs =>
        rw [hd] at h
        exact ⟨vs, cs, rfl, Bool.eq_false_iff.mpr he, rfl,
          (Except.ok.inj h).symm⟩

theorem draw3d_eq_ok (objects : List Obj3D) (args : Draw3DArgs)
    (vs : List Vec3) (cs : List DrawCmd)
    (hx : extract_vectors_3D objects = .ok vs)
    (he : (if args.origin then vs ++ [origin3] else vs).isEmpty = false)
    (hd : drawAllCmds args.depthshade objects = .ok cs) :
    draw3d objects args =
      .ok (mkScene args (if args.origin then vs ++ [origin3] else vs) cs) := by
  unfold draw3d
  rw [hx]
  simp only
  rw [if_neg (by rw [he]; exact Bool.false_ne_true), hd]

theorem draw3d_error_elim (objects : List Obj3D) (args : Draw3DArgs)
    (e : PyError) (h : draw3d objects args = .error e) :
    extract_vectors_3D objects = .error e ∨ e = unpackError ∨
      drawAllCmds args.depthshade objects = .error e := by
  unfold draw3d at h
  cases hx : extract_vectors_3D objects with
  | error e0 =>
    rw [hx] at h
    exact Or.inl (by rw [← Except.error.inj h])
  | ok vs =>
    rw [hx] at h
    simp only at h
    by_cases he : (if args.origin then vs ++ [origin3] else vs).isEmpty
    · rw [if_pos he] at h
      exact Or.inr (Or.inl (Except.error.inj h).symm)
    · rw [if_neg he] at h
      cases hd : drawAllCmds args.depthshade objects with
      | error e1 =>
        rw [hd] at h
        exact Or.inr (Or.inr (by rw [← Except.error.inj h]))
      | ok cs =>
        rw [hd] at h
        cases h

theorem mkScene_plot_ranges (args : Draw3DArgs) (allv : List Vec3)
    (cs : List DrawCmd) :
    (mkScene args allv cs).plot_x_range = axisRange (allv.map fun v => v.1) ∧
    (mkScene args allv cs).plot_y_range = axisRange (allv.map fun v => v.2.1) ∧
    (mkScene args allv cs).plot_z_range = axisRange (allv.map fun v => v.2.2) :=
  ⟨rfl, rfl, rfl⟩

/-! ## Claim theorems -/

/-- C1: the claim (and the source's own comment at line 207, "12 edges of a
rectangular prism from (0,0,0) to (x,y,z)") says a box is rendered as exactly
12 line segments connecting its 8 corners. The code issues only 9
`_draw_axis_line` calls (lines 208-216): at the input `Box3D(2,3,4)` exactly
9 segments are drawn, and the corner (0,0,0) is an endpoint of none of them,
so the three edges incident to the origin corner are missing. -/
theorem box3D_nine_edges_missing_origin :
    (boxCmds ((2 : ℚ), (3 : ℚ), (4 : ℚ))).length = 9 ∧
    origin3 ∉ (boxCmds ((2 : ℚ), (3 : ℚ), (4 : ℚ))).flatMap cmdEndpoints := by
  decide

/-- C5: for every sequence of objects of the five recognized types,
`extract_vectors_3D` yields exactly the documented coordinate triples as one
flat sequence — every vertex of each Polygon3D, every vector of each
Points3D, the tip and tail of each Arrow3D, both endpoints of each Segment3D,
and the corner vector of each Box3D — and nothing else. -/
theorem extract_vectors_3D_documented (objects : List Obj3D)
    (h : ∀ o ∈ objects, o.recognizedb = true) :
    extract_vectors_3D objects = .ok (objects.flatMap documentedVectors) :=
  extract_ok_of_recognized objects h

theorem extract_vectors_3D_documented_witness :
    extract_vectors_3D
        [Obj3D.polygon ⟨[(1, 0, 0), (0, 1, 0)], blue⟩,
         Obj3D.points ⟨[(5, 5, 5)], black⟩,
         Obj3D.arrow ⟨(1, 2, 3), (0, 0, 0), red⟩,
         Obj3D.segment ⟨(1, 1, 1), (2, 2, 2), blue, "solid"⟩,
         Obj3D.box ⟨(2, 3, 4)⟩] =
      .ok [(1, 0, 0), (0, 1, 0), (5, 5, 5), (1, 2, 3), (0, 0, 0),
           (1, 1, 1), (2, 2, 2), (2, 3, 4)] := by
  have h := extract_vectors_3D_documented
    [Obj3D.polygon ⟨[(1, 0, 0), (0, 1, 0)], blue⟩,
     Obj3D.points ⟨[(5, 5, 5)], black⟩,
     Obj3D.arrow ⟨(1, 2, 3), (0, 0, 0), red⟩,
     Obj3D.segment ⟨(1, 1, 1), (2, 2, 2), blue, "solid"⟩,
     Obj3D.box ⟨(2, 3, 4)⟩] (by decide)
  simpa [documentedVectors] using h

/-- C6: for every Polygon3D with N ≥ 1 vertices, the polygon branch of step 8
draws exactly N edges, edge i connecting vertex i to vertex (i+1) mod N, so
the polygon is a closed loop with an edge from the last vertex back to the
first. -/
theorem polygon_closed_loop_edges (p : Polygon3D) (d : Bool)
    (_hN : 1 ≤ p.vertices.length) :
    ∃ cmds, drawObjCmds d (.polygon p) = .ok cmds ∧
      cmds.length = p.vertices.length ∧
      ∀ i, i < p.vertices.length →
        cmds[i]? = some (.line (p.vertices.getD i origin3)
          (p.vertices.getD ((i + 1) % p.vertices.length) origin3)
          p.color "solid") := by
  refine ⟨(polygonEdges p.vertices).map
      fun e => DrawCmd.line e.1 e.2 p.color "solid",
    by rfl, by simp [polygonEdges], ?_⟩
  intro i hi
  simp [polygonEdges, List.getElem?_map, List.getElem?_range, hi, origin3]

theorem polygon_closed_loop_edges_witness :
    1 ≤ ([((1 : ℚ), (0 : ℚ), (0 : ℚ)), (0, 1, 0), (0, 0, 1)] : List Vec3).length ∧
    ∃ cmds,
      drawObjCmds false
          (.polygon ⟨[((1 : ℚ), (0 : ℚ), (0 : ℚ)), (0, 1, 0), (0, 0, 1)], blue⟩) =
        .ok cmds ∧
      cmds.length =
        ([((1 : ℚ), (0 : ℚ), (0 : ℚ)), (0, 1, 0), (0, 0, 1)] : List Vec3).length ∧
      ∀ i, i < ([((1 : ℚ), (0 : ℚ), (0 : ℚ)), (0, 1, 0), (0, 0, 1)] : List Vec3).length →
        cmds[i]? = some (.line
          (([((1 : ℚ), (0 : ℚ), (0 : ℚ)), (0, 1, 0), (0, 0, 1)] : List Vec3).getD i origin3)
          (([((1 : ℚ), (0 : ℚ), (0 : ℚ)), (0, 1, 0), (0, 0, 1)] : List Vec3).getD
            ((i + 1) % ([((1 : ℚ), (0 : ℚ), (0 : ℚ)), (0, 1, 0), (0, 0, 1)] : List Vec3).length)
            origin3)
          blue "solid") :=
  ⟨by decide,
    polygon_closed_loop_edges ⟨[((1 : ℚ), (0 : ℚ), (0 : ℚ)), (0, 1, 0), (0, 0, 1)], blue⟩
      false (by decide)⟩

/-- C8: calling draw3d with zero objects and origin=False hits
`xs, ys, zs = zip(*all_vectors)` at line 116 with an empty list and raises
the unpacking `ValueError` before any drawing command is produced, even
though no object is of an unrecognized type. -/
theorem draw3d_empty_no_origin_valueError (args : Draw3DArgs)
    (h : args.origin = false) :
    draw3d [] args = .error unpackError := by
  unfold draw3d
  simp [extract_vectors_3D, h]

theorem draw3d_empty_no_origin_valueError_witness :
    draw3d [] ⟨false, true, none, none, none, none, none, none, false⟩ =
      .error unpackError :=
  draw3d_empty_no_origin_valueError
    ⟨false, true, none, none, none, none, none, none, false⟩ rfl

/-- C3: for every successful call of draw3d, each axis range is computed from
the extracted vectors by taking the per-axis min and max clamped to include
zero, adding 5% of the axis extent as padding (or a fixed padding of 1 when
the extent is zero), and widening the resulting interval so that it spans at
least [-2, 2]. -/
theorem draw3d_ranges_follow_spec (objects : List Obj3D) (args : Draw3DArgs)
    (vs : List Vec3) (s : Scene)
    (hx : extract_vectors_3D objects = .ok vs)
    (h : draw3d objects args = .ok s) :
    rangeSpecHolds (vs.map fun v => v.1) s.plot_x_range ∧
    rangeSpecHolds (vs.map fun v => v.2.1) s.plot_y_range ∧
    rangeSpecHolds (vs.map fun v => v.2.2) s.plot_z_range := by
  obtain ⟨vs2, cs, hx2, hne, hd, hs⟩ := draw3d_ok_elim objects args s h
  rw [hx] at hx2
  have hv : vs = vs2 := Except.ok.inj hx2
  subst hv
  subst hs
  obtain ⟨hpx, hpy, hpz⟩ :=
    mkScene_plot_ranges args (if args.origin then vs ++ [origin3] else vs) cs
  rw [hpx, hpy, hpz]
  by_cases ho : args.origin
  · rw [if_pos ho, List.map_append, List.map_append, List.map_append]
    have e1 : [origin3].map (fun v : Vec3 => v.1) = [(0 : ℚ)] := rfl
    have e2 : [origin3].map (fun v : Vec3 => v.2.1) = [(0 : ℚ)] := rfl
    have e3 : [origin3].map (fun v : Vec3 => v.2.2) = [(0 : ℚ)] := rfl
    rw [e1, e2, e3, axisRange_append_zero, axisRange_append_zero,
      axisRange_append_zero]
    exact ⟨axisRange_meets_spec _, axisRange_meets_spec _,
      axisRange_meets_spec _⟩
  · rw [if_neg ho]
    exact ⟨axisRange_meets_spec _, axisRange_meets_spec _,
      axisRange_meets_spec _⟩

theorem draw3d_ranges_follow_spec_witness :
    rangeSpecHolds ([((1 : ℚ), (2 : ℚ), (3 : ℚ))].map fun v => v.1) (-2, 2) ∧
    rangeSpecHolds ([((1 : ℚ), (2 : ℚ), (3 : ℚ))].map fun v => v.2.1)
      (-2, 21 / 10) ∧
    rangeSpecHolds ([((1 : ℚ), (2 : ℚ), (3 : ℚ))].map fun v => v.2.2)
      (-2, 63 / 20) :=
  draw3d_ranges_follow_spec [Obj3D.box ⟨(1, 2, 3)⟩]
    ⟨true, false, none, none, none, none, none, none, false⟩
    [((1 : ℚ), (2 : ℚ), (3 : ℚ))]
    ⟨(-2, 2), (-2, 21 / 10), (-2, 63 / 20),
     (-2, 2), (-2, 21 / 10), (-2, 63 / 20), none, none, none,
     [.scatter [origin3] "k" "x",
      .line (0, 2, 0) (1, 2, 0) "gray" "dashed",
      .line (0, 0, 3) (0, 2, 3) "gray" "dashed",
      .line (0, 0, 3) (1, 0, 3) "gray" "dashed",
      .line (0, 2, 0) (0, 2, 3) "gray" "dashed",
      .line (1, 0, 0) (1, 2, 0) "gray" "dashed",
      .line (1, 0, 0) (1, 0, 3) "gray" "dashed",
      .line (0, 2, 3) (1, 2, 3) "gray" "dashed",
      .line (1, 0, 3) (1, 2, 3) "gray" "dashed",
      .line (1, 2, 0) (1, 2, 3) "gray" "dashed"]⟩
    (by decide)
    (by norm_num [draw3d, extract_vectors_3D, extractObjVectors, mkScene,
      drawAllCmds, drawObjCmds, boxCmds, axisRange, clampedMin, clampedMax,
      paddingOf, rmin, rmax, origin3])

/-- C4: for every successful call of draw3d, the computed plot range on each
of the three axes has lower bound at most -2 and upper bound at least 2; in
particular it contains the origin and every extracted coordinate. -/
theorem draw3d_range_invariant (objects : List Obj3D) (args : Draw3DArgs)
    (s : Scene) (h : draw3d objects args = .ok s) :
    (s.plot_x_range.1 ≤ -2 ∧ (2 : ℚ) ≤ s.plot_x_range.2 ∧
     s.plot_y_range.1 ≤ -2 ∧ (2 : ℚ) ≤ s.plot_y_range.2 ∧
     s.plot_z_range.1 ≤ -2 ∧ (2 : ℚ) ≤ s.plot_z_range.2) ∧
    (s.plot_x_range.1 ≤ 0 ∧ (0 : ℚ) ≤ s.plot_x_range.2 ∧
     s.plot_y_range.1 ≤ 0 ∧ (0 : ℚ) ≤ s.plot_y_range.2 ∧
     s.plot_z_range.1 ≤ 0 ∧ (0 : ℚ) ≤ s.plot_z_range.2) ∧
    ∀ vs, extract_vectors_3D objects = .ok vs → ∀ v ∈ vs,
      s.plot_x_range.1 ≤ v.1 ∧ v.1 ≤ s.plot_x_range.2 ∧
      s.plot_y_range.1 ≤ v.2.1 ∧ v.2.1 ≤ s.plot_y_range.2 ∧
      s.plot_z_range.1 ≤ v.2.2 ∧ v.2.2 ≤ s.plot_z_range.2 := by
  obtain ⟨vs0, cs, hx0, hne, hd, hs⟩ := draw3d_ok_elim objects args s h
  subst hs
  obtain ⟨hpx, hpy, hpz⟩ :=
    mkScene_plot_ranges args (if args.origin then vs0 ++ [origin3] else vs0) cs
  rw [hpx, hpy, hpz]
  have hneg : (-2 : ℚ) ≤ 0 := by norm_num
  have hpos : (0 : ℚ) ≤ 2 := by norm_num
  refine ⟨⟨axisRange_lo_le_neg_two _, two_le_axisRange_hi _,
      axisRange_lo_le_neg_two _, two_le_axisRange_hi _,
      axisRange_lo_le_neg_two _, two_le_axisRange_hi _⟩,
    ⟨le_trans (axisRange_lo_le_neg_two _) hneg,
      le_trans hpos (two_le_axisRange_hi _),
      le_trans (axisRange_lo_le_neg_two _) hneg,
      le_trans hpos (two_le_axisRange_hi _),
      le_trans (axisRange_lo_le_neg_two _) hneg,
      le_trans hpos (two_le_axisRange_hi _)⟩, ?_⟩
  intro vs hx v hv
  rw [hx0] at hx
  have hveq : vs0 = vs := Except.ok.inj hx
  subst hveq
  have hmem : v ∈ (if args.origin then vs0 ++ [origin3] else vs0) := by
    by_cases ho : args.origin
    · rw [if_pos ho]; exact List.mem_append_left _ hv
    · rw [if_neg ho]; exact hv
  exact ⟨axisRange_lo_le_mem _ _ (List.mem_map_of_mem _ hmem),
    axisRange_mem_le_hi _ _ (List.mem_map_of_mem _ hmem),
    axisRange_lo_le_mem _ _ (List.mem_map_of_mem _ hmem),
    axisRange_mem_le_hi _ _ (List.mem_map_of_mem _ hmem),
    axisRange_lo_le_mem _ _ (List.mem_map_of_mem _ hmem),
    axisRange_mem_le_hi _ _ (List.mem_map_of_mem _ hmem)⟩

theorem draw3d_range_invariant_witness :
    (((-2 : ℚ), (2 : ℚ)).1 ≤ -2 ∧ (2 : ℚ) ≤ ((-2 : ℚ), (2 : ℚ)).2) ∧
    ∀ vs, extract_vectors_3D [Obj3D.box ⟨((1 : ℚ), (2 : ℚ), (3 : ℚ))⟩] = .ok vs →
      ∀ v ∈ vs, ((-2 : ℚ), (2 : ℚ)).1 ≤ v.1 ∧ v.1 ≤ ((-2 : ℚ), (2 : ℚ)).2 := by
  have h := draw3d_range_invariant [Obj3D.box ⟨(1, 2, 3)⟩]
    ⟨true, false, none, none, none, none, none, none, false⟩
    ⟨(-2, 2), (-2, 21 / 10), (-2, 63 / 20),
     (-2, 2), (-2, 21 / 10), (-2, 63 / 20), none, none, none,
     [.scatter [origin3] "k" "x",
      .line (0, 2, 0) (1, 2, 0) "gray" "dashed",
      .line (0, 0, 3) (0, 2, 3) "gray" "dashed",
      .line (0, 0, 3) (1, 0, 3) "gray" "dashed",
      .line (0, 2, 0) (0, 2, 3) "gray" "dashed",
      .line (1, 0, 0) (1, 2, 0) "gray" "dashed",
      .line (1, 0, 0) (1, 0, 3) "gray" "dashed",
      .line (0, 2, 3) (1, 2, 3) "gray" "dashed",
      .line (1, 0, 3) (1, 2, 3) "gray" "dashed",
      .line (1, 2, 0) (1, 2, 3) "gray" "dashed"]⟩
    (by norm_num [draw3d, extract_vectors_3D, extractObjVectors, mkScene,
      drawAllCmds, drawObjCmds, boxCmds, axisRange, clampedMin, clampedMax,
      paddingOf, rmin, rmax, origin3])
  exact ⟨⟨h.1.1, h.1.2.1⟩, fun vs hx v hv =>
    ⟨(h.2.2 vs hx v hv).1, (h.2.2 vs hx v hv).2.1⟩⟩

/-- C2 (counterexample): the claim says that for every call whose objects are
all of recognized types no failure other than the documented type error
occurs. But a call with no objects and origin=False, and likewise a call on
a Points3D holding no vectors, raise the unpacking ValueError even though
every object is recognized. -/
theorem draw3d_valueError_all_recognized_cex :
    (∀ o ∈ ([] : List Obj3D), o.recognizedb = true) ∧
    draw3d [] ⟨false, true, none, none, none, none, none, none, false⟩ =
      .error unpackError ∧
    (∀ o ∈ [Obj3D.points ⟨[], black⟩], o.recognizedb = true) ∧
    draw3d [Obj3D.points ⟨[], black⟩]
        ⟨true, true, none, none, none, none, none, none, false⟩ =
      .error unpackError :=
  ⟨by decide, by decide, by decide, by decide⟩

/-- C2 (amended): draw3d raises a type error identifying an offending object
if and only if some passed object is not of a recognized type; a call whose
objects are all recognized can still fail, with a value error, when there is
no vector to plot (origin=False and no extracted vectors) or when some
Points3D holds no vectors — otherwise it succeeds. -/
theorem draw3d_error_modes (objects : List Obj3D) (args : Draw3DArgs) :
    (∀ m, draw3d objects args = .error (.typeError m) →
      ∃ r, Obj3D.unrecognized r ∈ objects ∧
        m = "Unrecognized object: " ++ r) ∧
    ((∃ o ∈ objects, o.recognizedb = false) →
      ∃ m, draw3d objects args = .error (.typeError m)) ∧
    ((∀ o ∈ objects, o.scatterSafe = true) →
      (args.origin = true ∨ objects.flatMap documentedVectors ≠ []) →
      ∃ s, draw3d objects args = .ok s) := by
  refine ⟨?_, ?_, ?_⟩
  · intro m h
    rcases draw3d_error_elim objects args _ h with he | he | he
    · obtain ⟨r, hmem, heq⟩ := extract_error_form objects _ he
      exact ⟨r, hmem, PyError.typeError.inj heq⟩
    · exact absurd he (by simp [unpackError])
    · rcases drawAll_error_form args.depthshade objects _ he with
        ⟨r, hmem, heq⟩ | heq
      · exact ⟨r, hmem, PyError.typeError.inj heq⟩
      · exact absurd heq (by simp [unpackError])
  · intro hex
    obtain ⟨r, hmem, heq⟩ := extract_error_of_unrecognized objects hex
    refine ⟨"Unrecognized object: " ++ r, ?_⟩
    unfold draw3d
    rw [heq]
  · intro hsafe hne
    have hrec : ∀ o ∈ objects, o.recognizedb = true :=
      fun o ho => scatterSafe_recognized o (hsafe o ho)
    have hx := extract_ok_of_recognized objects hrec
    obtain ⟨cs, hd⟩ := drawAll_ok_of_safe args.depthshade objects hsafe
    have he : (if args.origin then
        objects.flatMap documentedVectors ++ [origin3]
      else objects.flatMap documentedVectors).isEmpty = false := by
      rcases hne with ho | hne2
      · rw [if_pos ho]
        simp
      · by_cases ho : args.origin
        · rw [if_pos ho]
          simp
        · rw [if_neg ho]
          simpa [List.isEmpty_iff] using hne2
    exact ⟨_, draw3d_eq_ok objects args _ cs hx he hd⟩

theorem draw3d_error_modes_witness :
    (∃ m, draw3d [Obj3D.unrecognized "garbage"]
        ⟨true, true, none, none, none, none, none, none, false⟩ =
      .error (.typeError m)) ∧
    (∃ s, draw3d [Obj3D.box ⟨(1, 2, 3)⟩]
        ⟨true, true, none, none, none, none, none, none, false⟩ = .ok s) :=
  ⟨(draw3d_error_modes [Obj3D.unrecognized "garbage"]
      ⟨true, true, none, none, none, none, none, none, false⟩).2.1
      ⟨Obj3D.unrecognized "garbage", by decide, by decide⟩,
   (draw3d_error_modes [Obj3D.box ⟨(1, 2, 3)⟩]
      ⟨true, true, none, none, none, none, none, none, false⟩).2.2
      (by decide) (Or.inl rfl)⟩

/-- C7 (counterexample): the claim says whichever of xlim/ylim/zlim are
supplied override the computed ranges. But the code (line 222) applies the
override only when all three are given: here xlim=(-10,10) is supplied with
ylim and zlim omitted, and the final x-limits are the computed (-2,2), not
(-10,10). -/
theorem limit_override_requires_all_three_cex :
    ∃ s, draw3d [Obj3D.points ⟨[((1 : ℚ), (1 : ℚ), (1 : ℚ))], black⟩]
        ⟨true, true, some (-10, 10), none, none, none, none, none, false⟩ =
      .ok s ∧
      s.final_xlim = (-2, 2) ∧ s.final_xlim ≠ (-10, 10) := by
  refine ⟨⟨(-2, 2), (-2, 2), (-2, 2), (-2, 2), (-2, 2), (-2, 2),
    none, none, none,
    [.line (-2, 0, 0) (2, 0, 0) black "solid",
     .line (0, -2, 0) (0, 2, 0) black "solid",
     .line (0, 0, -2) (0, 0, 2) black "solid",
     .scatter [origin3] "k" "x",
     .scatter [((1 : ℚ), (1 : ℚ), (1 : ℚ))] black "o"]⟩, ?_, by decide, by decide⟩
  norm_num [draw3d, extract_vectors_3D, extractObjVectors, mkScene,
    drawAllCmds, drawObjCmds, axisRange, clampedMin, clampedMax,
    paddingOf, rmin, rmax, origin3, black]

/-- C7 (amended): explicit axis limits override the computed ranges only
when all three of xlim, ylim, zlim are supplied; otherwise the computed
ranges stand. Likewise explicit ticks take effect only when all three of
xticks, yticks, zticks are supplied; otherwise the library defaults stand. -/
theorem limit_tick_override_behavior (objects : List Obj3D)
    (args : Draw3DArgs) (s : Scene) (h : draw3d objects args = .ok s) :
    ((args.xlim.isSome && args.ylim.isSome && args.zlim.isSome) = true →
      args.xlim = some s.final_xlim ∧ args.ylim = some s.final_ylim ∧
        args.zlim = some s.final_zlim) ∧
    ((args.xlim.isSome && args.ylim.isSome && args.zlim.isSome) = false →
      s.final_xlim = s.plot_x_range ∧ s.final_ylim = s.plot_y_range ∧
        s.final_zlim = s.plot_z_range) ∧
    ((args.xticks.isSome && args.yticks.isSome && args.zticks.isSome) = true →
      s.final_xticks = args.xticks ∧ s.final_yticks = args.yticks ∧
        s.final_zticks = args.zticks) ∧
    ((args.xticks.isSome && args.yticks.isSome && args.zticks.isSome) = false →
      s.final_xticks = none ∧ s.final_yticks = none ∧
        s.final_zticks = none) := by
  obtain ⟨vs, cs, hx, hne, hd, hs⟩ := draw3d_ok_elim objects args s h
  subst hs
  refine ⟨?_, ?_, ?_, ?_⟩
  · intro hall
    have h1 : args.xlim.isSome = true :=
      (Bool.and_eq_true _ _ |>.mp ((Bool.and_eq_true _ _ |>.mp hall).1)).1
    have h2 : args.ylim.isSome = true :=
      (Bool.and_eq_true _ _ |>.mp ((Bool.and_eq_true _ _ |>.mp hall).1)).2
    have h3 : args.zlim.isSome = true :=
      (Bool.and_eq_true _ _ |>.mp hall).2
    obtain ⟨a, ha⟩ := Option.isSome_iff_exists.mp h1
    obtain ⟨b, hb⟩ := Option.isSome_iff_exists.mp h2
    obtain ⟨c, hc⟩ := Option.isSome_iff_exists.mp h3
    refine ⟨?_, ?_, ?_⟩ <;> simp [mkScene, hall, ha, hb, hc]
  · intro hfalse
    refine ⟨?_, ?_, ?_⟩ <;> simp [mkScene, hfalse]
  · intro hall
    refine ⟨?_, ?_, ?_⟩ <;> simp [mkScene, hall]
  · intro hfalse
    refine ⟨?_, ?_, ?_⟩ <;> simp [mkScene, hfalse]

theorem limit_tick_override_behavior_witness :
    (⟨true, true, some ((-10 : ℚ), (10 : ℚ)), some (-10, 10), some (-10, 10),
        none, none, none, false⟩ : Draw3DArgs).xlim = some ((-10 : ℚ), (10 : ℚ)) ∧
    (⟨true, true, some ((-10 : ℚ), (10 : ℚ)), some (-10, 10), some (-10, 10),
        none, none, none, false⟩ : Draw3DArgs).xticks = (none : Option (List ℚ)) := by
  have h := limit_tick_override_behavior [Obj3D.box ⟨(1, 2, 3)⟩]
    ⟨true, true, some (-10, 10), some (-10, 10), some (-10, 10),
      none, none, none, false⟩
    ⟨(-2, 2), (-2, 21 / 10), (-2, 63 / 20),
     (-10, 10), (-10, 10), (-10, 10), none, none, none,
     [.line (-2, 0, 0) (2, 0, 0) black "solid",
      .line (0, -2, 0) (0, 21 / 10, 0) black "solid",
      .line (0, 0, -2) (0, 0, 63 / 20) black "solid",
      .scatter [origin3] "k" "x",
      .line (0, 2, 0) (1, 2, 0) "gray" "dashed",
      .line (0, 0, 3) (0, 2, 3) "gray" "dashed",
      .line (0, 0, 3) (1, 0, 3) "gray" "dashed",
      .line (0, 2, 0) (0, 2, 3) "gray" "dashed",
      .line (1, 0, 0) (1, 2, 0) "gray" "dashed",
      .line (1, 0, 0) (1, 0, 3) "gray" "dashed",
      .line (0, 2, 3) (1, 2, 3) "gray" "dashed",
      .line (1, 0, 3) (1, 2, 3) "gray" "dashed",
      .line (1, 2, 0) (1, 2, 3) "gray" "dashed"]⟩
    (by norm_num [draw3d, extract_vectors_3D, extractObjVectors, mkScene,
      drawAllCmds, drawObjCmds, boxCmds, axisRange, clampedMin, clampedMax,
      paddingOf, rmin, rmax, origin3, black])
  have h2 := (h.1 (by decide)).1
  have h3 := (h.2.2.2 (by decide)).1
  exact ⟨h2.symm ▸ rfl, rfl⟩

/-- C9: for every two permuted sequences of objects, successful draw3d calls
compute identical plot ranges on all three axes — the bounding-box
computation depends only on the multiset of extracted coordinates. -/
theorem draw3d_ranges_perm_invariant (objs₁ objs₂ : List Obj3D)
    (args : Draw3DArgs) (s₁ s₂ : Scene) (hp : objs₁.Perm objs₂)
    (h₁ : draw3d objs₁ args = .ok s₁) (h₂ : draw3d objs₂ args = .ok s₂) :
    s₁.plot_x_range = s₂.plot_x_range ∧ s₁.plot_y_range = s₂.plot_y_range ∧
      s₁.plot_z_range = s₂.plot_z_range := by
  obtain ⟨vs₁, cs₁, hx₁, hne₁, hd₁, hs₁⟩ := draw3d_ok_elim objs₁ args s₁ h₁
  obtain ⟨vs₂, cs₂, hx₂, hne₂, hd₂, hs₂⟩ := draw3d_ok_elim objs₂ args s₂ h₂
  have e₁ := extract_ok_eq_flatMap objs₁ vs₁ hx₁
  have e₂ := extract_ok_eq_flatMap objs₂ vs₂ hx₂
  have hvs : vs₁.Perm vs₂ := by
    rw [e₁, e₂]; exact hp.flatMap_right documentedVectors
  have hallv : (if args.origin then vs₁ ++ [origin3] else vs₁).Perm
      (if args.origin then vs₂ ++ [origin3] else vs₂) := by
    by_cases ho : args.origin
    · rw [if_pos ho, if_pos ho]; exact hvs.append_right [origin3]
    · rw [if_neg ho, if_neg ho]; exact hvs
  subst hs₁
  subst hs₂
  obtain ⟨ha1, hb1, hc1⟩ :=
    mkScene_plot_ranges args (if args.origin then vs₁ ++ [origin3] else vs₁) cs₁
  obtain ⟨ha2, hb2, hc2⟩ :=
    mkScene_plot_ranges args (if args.origin then vs₂ ++ [origin3] else vs₂) cs₂
  rw [ha1, hb1, hc1, ha2, hb2, hc2]
  exact ⟨axisRange_perm _ _ (hallv.map _), axisRange_perm _ _ (hallv.map _),
    axisRange_perm _ _ (hallv.map _)⟩

theorem draw3d_ranges_perm_invariant_witness :
    ([Obj3D.box ⟨((1 : ℚ), (2 : ℚ), (3 : ℚ))⟩,
        Obj3D.points ⟨[(1, 1, 1)], black⟩] : List Obj3D).Perm
      [Obj3D.points ⟨[(1, 1, 1)], black⟩, Obj3D.box ⟨(1, 2, 3)⟩] ∧
    (((-2 : ℚ), (2 : ℚ)) = ((-2 : ℚ), (2 : ℚ)) ∧
     ((-2 : ℚ), (21 / 10 : ℚ)) = ((-2 : ℚ), (21 / 10 : ℚ)) ∧
     ((-2 : ℚ), (63 / 20 : ℚ)) = ((-2 : ℚ), (63 / 20 : ℚ))) :=
  ⟨by decide,
    draw3d_ranges_perm_invariant
      [Obj3D.box ⟨(1, 2, 3)⟩, Obj3D.points ⟨[(1, 1, 1)], black⟩]
      [Obj3D.points ⟨[(1, 1, 1)], black⟩, Obj3D.box ⟨(1, 2, 3)⟩]
      ⟨true, false, none, none, none, none, none, none, false⟩
      ⟨(-2, 2), (-2, 21 / 10), (-2, 63 / 20),
       (-2, 2), (-2, 21 / 10), (-2, 63 / 20), none, none, none,
       [.scatter [origin3] "k" "x",
        .line (0, 2, 0) (1, 2, 0) "gray" "dashed",
        .line (0, 0, 3) (0, 2, 3) "gray" "dashed",
        .line (0, 0, 3) (1, 0, 3) "gray" "dashed",
        .line (0, 2, 0) (0, 2, 3) "gray" "dashed",
        .line (1, 0, 0) (1, 2, 0) "gray" "dashed",
        .line (1, 0, 0) (1, 0, 3) "gray" "dashed",
        .line (0, 2, 3) (1, 2, 3) "gray" "dashed",
        .line (1, 0, 3) (1, 2, 3) "gray" "dashed",
        .line (1, 2, 0) (1, 2, 3) "gray" "dashed",
        .scatter [(1, 1, 1)] black "o"]⟩
      ⟨(-2, 2), (-2, 21 / 10), (-2, 63 / 20),
       (-2, 2), (-2, 21 / 10), (-2, 63 / 20), none, none, none,
       [.scatter [origin3] "k" "x",
        .scatter [(1, 1, 1)] black "o",
        .line (0, 2, 0) (1, 2, 0) "gray" "dashed",
        .line (0, 0, 3) (0, 2, 3) "gray" "dashed",
        .line (0, 0, 3) (1, 0, 3) "gray" "dashed",
        .line (0, 2, 0) (0, 2, 3) "gray" "dashed",
        .line (1, 0, 0) (1, 2, 0) "gray" "dashed",
        .line (1, 0, 0) (1, 0, 3) "gray" "dashed",
        .line (0, 2, 3) (1, 2, 3) "gray" "dashed",
        .line (1, 0, 3) (1, 2, 3) "gray" "dashed",
        .line (1, 2, 0) (1, 2, 3) "gray" "dashed"]⟩
      (by decide)
      (by norm_num [draw3d, extract_vectors_3D, extractObjVectors, mkScene,
        drawAllCmds, drawObjCmds, boxCmds, axisRange, clampedMin, clampedMax,
        paddingOf, rmin, rmax, origin3, black])
      (by norm_num [draw3d, extract_vectors_3D, extractObjVectors, mkScene,
        drawAllCmds, drawObjCmds, boxCmds, axisRange, clampedMin, clampedMax,
        paddingOf, rmin, rmax, origin3, black])⟩

/-- C10 (counterexample): the claim quantifies over every non-empty sequence
of objects of recognized types. A single Polygon3D with no vertices is such
a sequence, yet it extracts no vectors: with origin=True the call succeeds
and computes plot ranges, while with origin=False it fails on the empty
unpacking before any range exists — so the computed ranges are not identical
for the two flag values. -/
theorem origin_flag_changes_outcome_cex :
    ([Obj3D.polygon ⟨[], blue⟩] : List Obj3D) ≠ [] ∧
    (∀ o ∈ [Obj3D.polygon ⟨[], blue⟩], o.recognizedb = true) ∧
    (∃ s, draw3d [Obj3D.polygon ⟨[], blue⟩]
        ⟨true, false, none, none, none, none, none, none, false⟩ = .ok s) ∧
    draw3d [Obj3D.polygon ⟨[], blue⟩]
        ⟨false, false, none, none, none, none, none, none, false⟩ =
      .error unpackError := by
  refine ⟨by decide, by decide,
    ⟨⟨(-2, 2), (-2, 2), (-2, 2), (-2, 2), (-2, 2), (-2, 2),
      none, none, none, [.scatter [origin3] "k" "x"]⟩, ?_⟩, by decide⟩
  norm_num [draw3d, extract_vectors_3D, extractObjVectors, mkScene,
    drawAllCmds, drawObjCmds, polygonEdges, axisRange, clampedMin,
    clampedMax, paddingOf, rmin, rmax, origin3]

/-- C10 (amended): for every sequence of recognized objects whose extracted
vector list is non-empty, any two successful draw3d calls, one with
origin=True and one with origin=False, compute identical plot ranges: the
per-axis min/max are already clamped to include zero, so appending (0,0,0)
never changes the bounds. -/
theorem origin_flag_ranges_invariant (objects : List Obj3D)
    (args₁ args₂ : Draw3DArgs) (vs : List Vec3) (s₁ s₂ : Scene)
    (hx : extract_vectors_3D objects = .ok vs) (_hvs : vs ≠ [])
    (h₁o : args₁.origin = true) (h₂o : args₂.origin = false)
    (h₁ : draw3d objects args₁ = .ok s₁) (h₂ : draw3d objects args₂ = .ok s₂) :
    s₁.plot_x_range = s₂.plot_x_range ∧ s₁.plot_y_range = s₂.plot_y_range ∧
      s₁.plot_z_range = s₂.plot_z_range := by
  obtain ⟨vs₁, cs₁, hx₁, hne₁, hd₁, hs₁⟩ := draw3d_ok_elim objects args₁ s₁ h₁
  obtain ⟨vs₂, cs₂, hx₂, hne₂, hd₂, hs₂⟩ := draw3d_ok_elim objects args₂ s₂ h₂
  rw [hx] at hx₁ hx₂
  have hv₁ : vs = vs₁ := Except.ok.inj hx₁
  have hv₂ : vs = vs₂ := Except.ok.inj hx₂
  subst hs₁
  subst hs₂
  rw [if_pos h₁o] at *
  rw [if_neg (by simp [h₂o] : ¬args₂.origin = true)] at *
  subst hv₁
  subst hv₂
  obtain ⟨ha1, hb1, hc1⟩ := mkScene_plot_ranges args₁ (vs ++ [origin3]) cs₁
  obtain ⟨ha2, hb2, hc2⟩ := mkScene_plot_ranges args₂ vs cs₂
  rw [ha1, hb1, hc1, ha2, hb2, hc2]
  rw [List.map_append, List.map_append, List.map_append]
  have e1 : [origin3].map (fun v : Vec3 => v.1) = [(0 : ℚ)] := rfl
  have e2 : [origin3].map (fun v : Vec3 => v.2.1) = [(0 : ℚ)] := rfl
  have e3 : [origin3].map (fun v : Vec3 => v.2.2) = [(0 : ℚ)] := rfl
  rw [e1, e2, e3, axisRange_append_zero, axisRange_append_zero,
    axisRange_append_zero]
  exact ⟨rfl, rfl, rfl⟩

theorem origin_flag_ranges_invariant_witness :
    [((1 : ℚ), (2 : ℚ), (3 : ℚ))] ≠ ([] : List Vec3) ∧
    (((-2 : ℚ), (2 : ℚ)) = ((-2 : ℚ), (2 : ℚ)) ∧
     ((-2 : ℚ), (21 / 10 : ℚ)) = ((-2 : ℚ), (21 / 10 : ℚ)) ∧
     ((-2 : ℚ), (63 / 20 : ℚ)) = ((-2 : ℚ), (63 / 20 : ℚ))) :=
  ⟨by decide,
    origin_flag_ranges_invariant [Obj3D.box ⟨(1, 2, 3)⟩]
      ⟨true, false, none, none, none, none, none, none, false⟩
      ⟨false, false, none, none, none, none, none, none, false⟩
      [((1 : ℚ), (2 : ℚ), (3 : ℚ))]
      ⟨(-2, 2), (-2, 21 / 10), (-2, 63 / 20),
       (-2, 2), (-2, 21 / 10), (-2, 63 / 20), none, none, none,
       [.scatter [origin3] "k" "x",
        .line (0, 2, 0) (1, 2, 0) "gray" "dashed",
        .line (0, 0, 3) (0, 2, 3) "gray" "dashed",
        .line (0, 0, 3) (1, 0, 3) "gray" "dashed",
        .line (0, 2, 0) (0, 2, 3) "gray" "dashed",
        .line (1, 0, 0) (1, 2, 0) "gray" "dashed",
        .line (1, 0, 0) (1, 0, 3) "gray" "dashed",
        .line (0, 2, 3) (1, 2, 3) "gray" "dashed",
        .line (1, 0, 3) (1, 2, 3) "gray" "dashed",
        .line (1, 2, 0) (1, 2, 3) "gray" "dashed"]⟩
      ⟨(-2, 2), (-2, 21 / 10), (-2, 63 / 20),
       (-2, 2), (-2, 21 / 10), (-2, 63 / 20), none, none, none,
       [.line (0, 2, 0) (1, 2, 0) "gray" "dashed",
        .line (0, 0, 3) (0, 2, 3) "gray" "dashed",
        .line (0, 0, 3) (1, 0, 3) "gray" "dashed",
        .line (0, 2, 0) (0, 2, 3) "gray" "dashed",
        .line (1, 0, 0) (1, 2, 0) "gray" "dashed",
        .line (1, 0, 0) (1, 0, 3) "gray" "dashed",
        .line (0, 2, 3) (1, 2, 3) "gray" "dashed",
        .line (1, 0, 3) (1, 2, 3) "gray" "dashed",
        .line (1, 2, 0) (1, 2, 3) "gray" "dashed"]⟩
      (by decide) (by decide) rfl rfl
      (by norm_num [draw3d, extract_vectors_3D, extractObjVectors, mkScene,
        drawAllCmds, drawObjCmds, boxCmds, axisRange, clampedMin, clampedMax,
        paddingOf, rmin, rmax, origin3])
      (by norm_num [draw3d, extract_vectors_3D, extractObjVectors, mkScene,
        drawAllCmds, drawObjCmds, boxCmds, axisRange, clampedMin, clampedMax,
        paddingOf, rmin, rmax, origin3])⟩
